import Mathlib

/-!
Verification of the BLOCCO 06 orchestrator (`server/app_orchestrator_v1.py`).

The pipeline is embedded shallowly: JSON values are an inductive type,
module HTTP calls are resolved by an environment oracle giving the result of
each attempt, and all I/O (upload reads, file writes, outbound calls) is
recorded in an explicit effect trace.
-/

/-- JSON values, as produced by `r.json()` on module responses. Numbers are
modelled as rationals (the orchestrator never computes with scores, it only
tests truthiness and passes them through). -/
inductive JVal where
  | jnull
  | jbool (b : Bool)
  | jnum (q : Rat)
  | jstr (s : String)
  | jarr (items : List JVal)
  | jobj (fields : List (String × JVal))
deriving Repr

mutual

def JVal.deq : (a b : JVal) → Decidable (a = b)
  | .jnull, .jnull => .isTrue rfl
  | .jnull, .jbool _ => .isFalse (fun h => nomatch h)
  | .jnull, .jnum _ => .isFalse (fun h => nomatch h)
  | .jnull, .jstr _ => .isFalse (fun h => nomatch h)
  | .jnull, .jarr _ => .isFalse (fun h => nomatch h)
  | .jnull, .jobj _ => .isFalse (fun h => nomatch h)
  | .jbool _, .jnull => .isFalse (fun h => nomatch h)
  | .jbool x, .jbool y =>
    match decEq x y with
    | .isTrue h => .isTrue (by rw [h])
    | .isFalse h => .isFalse (fun hh => h (by cases hh; rfl))
  | .jbool _, .jnum _ => .isFalse (fun h => nomatch h)
  | .jbool _, .jstr _ => .isFalse (fun h => nomatch h)
  | .jbool _, .jarr _ => .isFalse (fun h => nomatch h)
  | .jbool _, .jobj _ => .isFalse (fun h => nomatch h)
  | .jnum _, .jnull => .isFalse (fun h => nomatch h)
  | .jnum _, .jbool _ => .isFalse (fun h => nomatch h)
  | .jnum x, .jnum y =>
    match decEq x y with
    | .isTrue h => .isTrue (by rw [h])
    | .isFalse h => .isFalse (fun hh => h (by cases hh; rfl))
  | .jnum _, .jstr _ => .isFalse (fun h => nomatch h)
  | .jnum _, .jarr _ => .isFalse (fun h => nomatch h)
  | .jnum _, .jobj _ => .isFalse (fun h => nomatch h)
  | .jstr _, .jnull => .isFalse (fun h => nomatch h)
  | .jstr _, .jbool _ => .isFalse (fun h => nomatch h)
  | .jstr _, .jnum _ => .isFalse (fun h => nomatch h)
  | .jstr x, .jstr y =>
    match decEq x y with
    | .isTrue h => .isTrue (by rw [h])
    | .isFalse h => .isFalse (fun hh => h (by cases hh; rfl))
  | .jstr _, .jarr _ => .isFalse (fun h => nomatch h)
  | .jstr _, .jobj _ => .isFalse (fun h => nomatch h)
  | .jarr _, .jnull => .isFalse (fun h => nomatch h)
  | .jarr _, .jbool _ => .isFalse (fun h => nomatch h)
  | .jarr _, .jnum _ => .isFalse (fun h => nomatch h)
  | .jarr _, .jstr _ => .isFalse (fun h => nomatch h)
  | .jarr l, .jarr m =>
    match JVal.deqList l m with
    | .isTrue h => .isTrue (by rw [h])
    | .isFalse h => .isFalse (fun hh => h (by cases hh; rfl))
  | .jarr _, .jobj _ => .isFalse (fun h => nomatch h)
  | .jobj _, .jnull => .isFalse (fun h => nomatch h)
  | .jobj _, .jbool _ => .isFalse (fun h => nomatch h)
  | .jobj _, .jnum _ => .isFalse (fun h => nomatch h)
  | .jobj _, .jstr _ => .isFalse (fun h => nomatch h)
  | .jobj _, .jarr _ => .isFalse (fun h => nomatch h)
  | .jobj l, .jobj m =>
    match JVal.deqFields l m with
    | .isTrue h => .isTrue (by rw [h])
    | .isFalse h => .isFalse (fun hh => h (by cases hh; rfl))

def JVal.deqList : (l m : List JVal) → Decidable (l = m)
  | [], [] => .isTrue rfl
  | [], _ :: _ => .isFalse (fun h => nomatch h)
  | _ :: _, [] => .isFalse (fun h => nomatch h)
  | x :: xs, y :: ys =>
    match JVal.deq x y, JVal.deqList xs ys with
    | .isTrue h1, .isTrue h2 => .isTrue (by rw [h1, h2])
    | .isFalse h1, _ => .isFalse (fun h => h1 (by cases h; rfl))
    | .isTrue _, .isFalse h2 => .isFalse (fun h => h2 (by cases h; rfl))

def JVal.deqFields : (l m : List (String × JVal)) → Decidable (l = m)
  | [], [] => .isTrue rfl
  | [], _ :: _ => .isFalse (fun h => nomatch h)
  | _ :: _, [] => .isFalse (fun h => nomatch h)
  | (k, v) :: xs, (k2, v2) :: ys =>
    match decEq k k2, JVal.deq v v2, JVal.deqFields xs ys with
    | .isTrue h0, .isTrue h1, .isTrue h2 => .isTrue (by rw [h0, h1, h2])
    | .isFalse h0, _, _ => .isFalse (fun h => h0 (by cases h; rfl))
    | .isTrue _, .isFalse h1, _ => .isFalse (fun h => h1 (by cases h; rfl))
    | .isTrue _, .isTrue _, .isFalse h2 => .isFalse (fun h => h2 (by cases h; rfl))

end

instance : DecidableEq JVal := JVal.deq

/-- Python truthiness for the modelled JSON values (None, False, 0, "", [],
and the empty object are falsy). -/
def jTruthy : JVal → Bool
  | .jnull => false
  | .jbool b => b
  | .jnum q => if q = 0 then false else true
  | .jstr s => if s = "" then false else true
  | .jarr l => if l = [] then false else true
  | .jobj l => if l = [] then false else true

/-- Python `a or b`. -/
def pyOr (a b : JVal) : JVal := if jTruthy a then a else b

/-- Python `d.get(k)` on a JSON object given as an association list (absent
key yields None). -/
def dget (d : List (String × JVal)) (k : String) : JVal :=
  match d.lookup k with
  | some v => v
  | none => .jnull

/-- Python `s[:n]` (done on character lists so terms reduce in the kernel). -/
def strTake (n : Nat) (s : String) : String := String.mk (s.toList.take n)

/-- Python `s.upper()` (the inputs are ASCII hex strings). -/
def strUpper (s : String) : String := String.mk (s.toList.map Char.toUpper)

/-- Python `s.rstrip("/")`: drop trailing slashes. -/
def rstripSlash (s : String) : String :=
  String.mk ((s.toList.reverse.dropWhile (fun ch => ch = '/')).reverse)

/-- Python `s.startswith("/")`. -/
def startsWithSlash (s : String) : Bool :=
  match s.toList with
  | '/' :: _ => true
  | _ => false

/-- Source lines 99-102. -/
def _join (base path : String) : String :=
  let b := rstripSlash base
  let p := if startsWithSlash path then path else "/" ++ path
  b ++ p

/-- Python `s or default` for a string that may be falsy (empty). -/
def strOrDefault (s dflt : String) : String := if s = "" then dflt else s

/-- Python `opt or default` for an optional string (None and "" are falsy). -/
def optStrOrDefault (o : Option String) (dflt : String) : String :=
  match o with
  | some s => strOrDefault s dflt
  | none => dflt

/-- Python `pathlib.Path(p).suffix`: the extension of the final path
component, i.e. the part from the last dot on, provided the dot is neither
the first nor the last character of the component. -/
def pathSuffix (p : String) : String :=
  let cs := (p.toList.reverse.takeWhile (fun ch => ch ≠ '/')).reverse
  let r := cs.reverse.indexOf '.'
  if r < cs.length then
    let i := cs.length - 1 - r
    if 0 < i ∧ i < cs.length - 1 then String.mk (cs.drop i) else ""
  else ""

/-- Python `list(dict.fromkeys(l))`: deduplicate keeping the first occurrence
of each element, preserving order (`seen` holds elements already emitted). -/
def dedupFirstAux {α : Type} [DecidableEq α] (seen : List α) : List α → List α
  | [] => []
  | x :: xs => if x ∈ seen then dedupFirstAux seen xs else x :: dedupFirstAux (x :: seen) xs

def dedupFirst {α : Type} [DecidableEq α] (l : List α) : List α := dedupFirstAux [] l

/-- The read loop `iter(lambda: f.read(n), b"")` of `_sha256_file`: split a
byte stream into successive chunks of at most `n` bytes. Also used to split
a padded SHA-256 message into 64-byte blocks. A chunk size of zero would
loop forever in the source; here it yields no chunks and is never used. -/
def readChunks {α : Type} (n : Nat) : List α → List (List α)
  | [] => []
  | x :: xs =>
    if n = 0 then []
    else (x :: xs).take n :: readChunks n ((x :: xs).drop n)
termination_by l => l.length
decreasing_by
  simp only [List.length_drop, List.length_cons]
  omega

/-!
SHA-256, implemented over byte lists (each byte a `Nat < 256`), 32-bit words
as `Nat` reduced modulo `2 ^ 32`. This models `hashlib.sha256`; the
incremental `update` API is modelled by its documented semantics:
`h.update(a); h.update(b)` is equivalent to `h.update(a + b)`, so the state
is the accumulated message and the digest is computed over it.
-/

def w32 (x : Nat) : Nat := x % 4294967296

def rotr (n x : Nat) : Nat := w32 ((x >>> n) ||| (x <<< (32 - n)))

def bigSigma0 (x : Nat) : Nat := rotr 2 x ^^^ rotr 13 x ^^^ rotr 22 x

def bigSigma1 (x : Nat) : Nat := rotr 6 x ^^^ rotr 11 x ^^^ rotr 25 x

def smallSigma0 (x : Nat) : Nat := rotr 7 x ^^^ rotr 18 x ^^^ (x >>> 3)

def smallSigma1 (x : Nat) : Nat := rotr 17 x ^^^ rotr 19 x ^^^ (x >>> 10)

def chF (x y z : Nat) : Nat := (x &&& y) ^^^ ((x ^^^ 4294967295) &&& z)

def majF (x y z : Nat) : Nat := (x &&& y) ^^^ (x &&& z) ^^^ (y &&& z)

def K256 : List Nat :=
  [1116352408, 1899447441, 3049323471, 3921009573, 961987163,
   1508970993, 2453635748, 2870763221, 3624381080, 310598401,
   607225278, 1426881987, 1925078388, 2162078206, 2614888103,
   3248222580, 3835390401, 4022224774, 264347078, 604807628,
   770255983, 1249150122, 1555081692, 1996064986, 2554220882,
   2821834349, 2952996808, 3210313671, 3336571891, 3584528711,
   113926993, 338241895, 666307205, 773529912, 1294757372,
   1396182291, 1695183700, 1986661051, 2177026350, 2456956037,
   2730485921, 2820302411, 3259730800, 3345764771, 3516065817,
   3600352804, 4094571909, 275423344, 430227734, 506948616,
   659060556, 883997877, 958139571, 1322822218, 1537002063,
   1747873779, 1955562222, 2024104815, 2227730452, 2361852424,
   2428436474, 2756734187, 3204031479, 3329325298]

def H256init : List Nat :=
  [1779033703, 3144134277, 1013904242, 2773480762, 1359893119,
   2600822924, 528734635, 1541459225]

/-- Big-endian 32-bit words from a byte list (length a multiple of 4). -/
def bytesToWords : List Nat → List Nat
  | b0 :: b1 :: b2 :: b3 :: rest => (((b0 * 256 + b1) * 256 + b2) * 256 + b3) :: bytesToWords rest
  | _ => []

/-- Big-endian byte encoding of `n` in exactly `k` bytes. -/
def beBytes (n : Nat) : Nat → List Nat
  | 0 => []
  | k + 1 => beBytes (n / 256) k ++ [n % 256]

/-- SHA-256 padding: append 0x80, zeros to 56 mod 64, then the 64-bit
big-endian bit length. -/
def padMessage (msg : List Nat) : List Nat :=
  let zeros := (119 - msg.length % 64) % 64
  msg ++ [128] ++ List.replicate zeros 0 ++ beBytes (msg.length * 8) 8

/-- Extend the 16 message-schedule words to 64. -/
def extendW (ws : List Nat) : Nat → List Nat
  | 0 => ws
  | n + 1 =>
    let t := ws.length
    let wt := w32 (smallSigma1 (ws.getD (t - 2) 0) + ws.getD (t - 7) 0 +
      smallSigma0 (ws.getD (t - 15) 0) + ws.getD (t - 16) 0)
    extendW (ws ++ [wt]) n

/-- One SHA-256 round on the state `[a,b,c,d,e,f,g,h]`. -/
def compressRound (k w : Nat) (s : List Nat) : List Nat :=
  match s with
  | [a, b, c, d, e, f, g, h] =>
    let t1 := w32 (h + bigSigma1 e + chF e f g + k + w)
    let t2 := w32 (bigSigma0 a + majF a b c)
    [w32 (t1 + t2), a, b, c, w32 (d + t1), e, f, g]
  | other => other

/-- Process one 64-byte block (given as 16 words) into the hash state. -/
def compressBlock (h : List Nat) (block : List Nat) : List Nat :=
  let ws := extendW block 48
  let s := (List.range 64).foldl (fun st t => compressRound (K256.getD t 0) (ws.getD t 0) st) h
  List.zipWith (fun a b => w32 (a + b)) h s

/-- SHA-256 of a byte list, as the list of eight 32-bit state words. -/
def sha256Words (msg : List Nat) : List Nat :=
  ((readChunks 64 (padMessage msg)).map bytesToWords).foldl compressBlock H256init

def hexDigit (n : Nat) : Char := "0123456789abcdef".toList.getD n '0'

/-- Lower-case hex rendering of `n` in exactly `k` digits. -/
def hexNum (n : Nat) : Nat → List Char
  | 0 => []
  | k + 1 => hexNum (n / 16) k ++ [hexDigit (n % 16)]

/-- The `hashlib.sha256` object: by the documented semantics of the library the
state is the concatenation of all bytes fed so far (repeated `update` calls
are equivalent to one `update` of the concatenation); `hexdigest` hashes it.
The internal 64-byte block buffering is not modelled. -/
structure Sha256Ctx where
  buffered : List Nat
deriving DecidableEq, Repr

def sha256_init : Sha256Ctx := ⟨[]⟩

def sha256_update (c : Sha256Ctx) (chunk : List Nat) : Sha256Ctx := ⟨c.buffered ++ chunk⟩

def sha256_hexdigest (c : Sha256Ctx) : String :=
  String.mk (((sha256Words c.buffered).map (fun w => hexNum w 8)).flatten)

/-- Source lines 71-72: `hashlib.sha256(data).hexdigest()`. -/
def _sha256_bytes (data : List Nat) : String :=
  sha256_hexdigest (sha256_update sha256_init data)

/-- Source lines 75-80: stream the file in 1 MiB chunks through one hash
object. The argument is the byte content of the file at `path`. -/
def _sha256_file (fileData : List Nat) : String :=
  sha256_hexdigest ((readChunks (1024 * 1024) fileData).foldl sha256_update sha256_init)

/-!
Module client (`_post_json`, `_post_multipart`, source lines 117-157).

One attempt of the `httpx` call either raises (connection error, timeout,
body decode failure - modelled as `Except.error` with the exception text) or
yields an HTTP response with a status, a content-type that may or may not be
JSON, the decoded JSON object body, and the raw text. The outcome of each
attempt is fixed by an oracle `attempts : Nat → Except String HttpResp`;
the request payload itself is recorded separately in the effect trace.
-/

structure HttpResp where
  status : Nat
  jsonCT : Bool
  body : List (String × JVal)
  text : String
deriving DecidableEq, Repr

/-- Source lines 123-128 (identical in both clients): statuses at or above
400 are wrapped into an error-marker dict carrying the JSON body when the
content type is JSON, else the text truncated to 500 characters; success
yields the JSON body, or the raw text under the key `raw`. -/
def respToDict (r : HttpResp) : List (String × JVal) :=
  if 400 ≤ r.status then
    if r.jsonCT then
      [("__http_error__", .jbool true), ("__status__", .jnum (r.status : Rat)), ("__json__", .jobj r.body)]
    else
      [("__http_error__", .jbool true), ("__status__", .jnum (r.status : Rat)), ("__text__", .jstr (strTake 500 r.text))]
  else if r.jsonCT then r.body else [("raw", .jstr r.text)]

/-- The retry loop `for attempt in range(max(1, HTTP_RETRIES + 1))`: return
on the first non-raising attempt, otherwise remember the exception; after
exhausting all attempts the loop falls through with the last exception.
`i` is the next attempt index, `remaining` the attempts left. -/
def postAttempt (attempts : Nat → Except String HttpResp) :
    Nat → Nat → Option String → Except (Option String) (List (String × JVal))
  | _, 0, last => .error last
  | i, n + 1, _ =>
    match attempts i with
    | .ok r => .ok (respToDict r)
    | .error e => postAttempt attempts (i + 1) n (some e)

def exceptionText : Option String → String
  | some e => e
  | none => "None"

/-- Source lines 117-133: on success the normalized dict; after exhausting
retries, a raised RuntimeError whose text is the HTTP_POST_JSON_FAILED tag
with the URL and the last exception appended. -/
def _post_json (url : String) (retries : Nat) (attempts : Nat → Except String HttpResp) :
    Except String (List (String × JVal)) :=
  match postAttempt attempts 0 (max 1 (retries + 1)) none with
  | .ok d => .ok d
  | .error last => .error ("HTTP_POST_JSON_FAILED: " ++ url ++ " :: " ++ exceptionText last)

/-- Source lines 136-157: same loop and normalization as `_post_json`, with
a multipart payload and its own failure tag. -/
def _post_multipart (url : String) (retries : Nat) (attempts : Nat → Except String HttpResp) :
    Except String (List (String × JVal)) :=
  match postAttempt attempts 0 (max 1 (retries + 1)) none with
  | .ok d => .ok d
  | .error last => .error ("HTTP_POST_MULTIPART_FAILED: " ++ url ++ " :: " ++ exceptionText last)

/-!
Configuration (source lines 32-52). The module base URLs and paths are the
defaults from the source (environment overrides are deployment input, not
logic); the numeric limits and the retry count are carried in `Env` below so
the size-ceiling claims quantify over them.
-/

def CHALLENGE_BASE_URL : String := "http://127.0.0.1:5012"

def VOICE_BASE_URL : String := "http://127.0.0.1:5011"

def FACE_BASE_URL : String := "http://127.0.0.1:5011"

def LIPSYNC_BASE_URL : String := "http://127.0.0.1:5013"

def VSR_BASE_URL : String := "http://127.0.0.1:5014"

def FUSION_BASE_URL : String := "http://127.0.0.1:5015"

def CHALLENGE_VALIDATE_PATH : String := "/api/challenge/validate"

def VOICE_VERIFY_PATH : String := "/api/voice/verify"

def FACE_VERIFY_PATH : String := "/api/face/verify"

def LIPSYNC_VALIDATE_PATH : String := "/api/lipsync/validate"

def VSR_VALIDATE_PATH : String := "/api/vsr/validate"

def FUSION_EVALUATE_PATH : String := "/api/fusion/evaluate"

def CHALLENGE_VALIDATE_URL : String := _join CHALLENGE_BASE_URL CHALLENGE_VALIDATE_PATH

def VOICE_VERIFY_URL : String := _join VOICE_BASE_URL VOICE_VERIFY_PATH

def FACE_VERIFY_URL : String := _join FACE_BASE_URL FACE_VERIFY_PATH

def LIPSYNC_VALIDATE_URL : String := _join LIPSYNC_BASE_URL LIPSYNC_VALIDATE_PATH

def VSR_VALIDATE_URL : String := _join VSR_BASE_URL VSR_VALIDATE_PATH

def FUSION_EVALUATE_URL : String := _join FUSION_BASE_URL FUSION_EVALUATE_PATH

/-- Source lines 91-96: map the policy to a mode or raise
`ValueError("INVALID_POLICY")` (modelled as `Except.error`). -/
def _policy_to_mode (policy_id : String) : Except String String :=
  if policy_id = "STRICT_STANDARD" then .ok "SPOKEN"
  else if policy_id = "STRICT_SILENT" then .ok "SILENT"
  else .error "INVALID_POLICY"

/-!
Request, environment, effects and outcomes of `multimodal_verify`.
-/

/-- A FastAPI `UploadFile`: its filename and content type may be absent. -/
structure Upload where
  filename : Option String
  ctype : Option String
  content : List Nat
deriving DecidableEq, Repr

/-- The multipart form of `POST /api/multimodal/verify` (source 207-217). -/
structure Request where
  policy_id : String
  enrollment_id_face : String
  enrollment_id_voice : Option String
  challenge_id : String
  accept_face : Rat
  reject_face : Rat
  accept_voice : Rat
  reject_voice : Rat
  clip_video : Upload
  clip_audio : Option Upload
deriving DecidableEq, Repr

/-- Everything outside the request that the handler consumes: configuration
limits and retry count, the fresh identifiers drawn from `uuid4`, the clock
reading, and the per-module oracles fixing the outcome of each call attempt. -/
structure Env where
  httpRetries : Nat
  maxVideoMB : Nat
  maxAudioMB : Nat
  sessionHex : String
  proofHex : String
  nowIso : String
  chAttempts : Nat → Except String HttpResp
  faceAttempts : Nat → Except String HttpResp
  voiceAttempts : Nat → Except String HttpResp
  lipsyncAttempts : Nat → Except String HttpResp
  vsrAttempts : Nat → Except String HttpResp
  fusionAttempts : Nat → Except String HttpResp

/-- One part of a multipart upload: form field name, filename, bytes,
content type. -/
structure MPFile where
  fieldName : String
  fName : String
  fBytes : List Nat
  cType : String
deriving DecidableEq, Repr

/-- Observable I/O of one run, in order. `writeText` stands for the
metadata/proof/integrity JSON text files; their serialized text is not
modelled (the logical content of the proof is returned separately), only the
write event. Timing measurements (wall clock) are not modelled. -/
inductive Effect where
  | readUpload (which : String)
  | mkdirp (path : String)
  | writeBytes (path : String) (content : List Nat)
  | writeText (path : String)
  | httpMultipart (url : String) (fields : List (String × String)) (files : List MPFile)
      (headers : List (String × String))
  | httpJson (url : String) (payload : JVal) (headers : List (String × String))
deriving DecidableEq, Repr

/-- The body `_err` builds (source 105-114): always exactly these four keys. -/
structure ErrBody where
  ok : Bool
  error_code : String
  error_message : String
  flags_summary : JVal
deriving DecidableEq, Repr

/-- The `breakdown` object of the success response and of the proof. -/
structure Breakdown where
  voice_score : JVal
  face_score : JVal
  lipsync_score : JVal
  challenge_score : JVal
  vsr_score : JVal
deriving DecidableEq, Repr

/-- The proof artifact (source 426-462). `time_utc`, static `module_refs`
and wall-clock `timings_ms` are omitted; `sha_proof` (digest of the
serialized proof text itself) is not modelled since JSON serialization is not. -/
structure ProofObj where
  proof_version : String
  proof_id : String
  policy_id : String
  mode : String
  session_id : String
  final_decision : JVal
  breakdown : Breakdown
  flags_summary : List JVal
  sha_video : String
  sha_audio : Option String
deriving DecidableEq, Repr

/-- The success envelope returned on line 477-491 (timings omitted). -/
structure SuccessBody where
  ok : Bool
  final_decision : JVal
  proof_id : String
  proof_file : String
  breakdown : Breakdown
  flags_summary : List JVal
deriving DecidableEq, Repr

/-- What the endpoint produces: an `_err` JSON response with its HTTP
status, the success envelope (with the proof object it persisted), or an
exception escaping the handler uncaught. -/
inductive PipeResult where
  | errResp (status : Nat) (body : ErrBody)
  | okResp (body : SuccessBody) (proof : ProofObj)
  | raised (msg : String)
deriving DecidableEq, Repr

structure RunOutcome where
  result : PipeResult
  trace : List Effect
deriving DecidableEq, Repr

/-- Source 105-114: `_err(status, code, msg, flags=None)` with body
`{ok: False, error_code, error_message, flags_summary: flags or []}`. -/
def _err (status : Nat) (code msg : String) (flags : Option JVal) : PipeResult :=
  .errResp status ⟨false, code, msg, pyOr (flags.getD .jnull) (.jarr [])⟩

/-- Python iteration over a JSON value, as used by `flags_summary += (...)`:
a list yields its items, a string its characters, an object its keys. The
remaining values are not iterable (a `TypeError` in the source); no claim
exercises that path and it yields `[]` here. -/
def jElems : JVal → List JVal
  | .jarr l => l
  | .jstr s => s.toList.map (fun ch => .jstr (String.mk [ch]))
  | .jobj fields => fields.map (fun kv => .jstr kv.1)
  | _ => []

/-- Python `j.get(k)` where `j` is a JSON value expected to be an object
(`.get` on a non-object raises in the source; the error-body values reaching
this are objects or the `{}` fallback). -/
def dgetV : JVal → String → JVal
  | .jobj d, k => dget d k
  | _, _ => .jnull

/-- Python `res.get("__status__", 500)`. The stored value is the numeric
status put there by `respToDict`; anything else falls back to 500. -/
def statusD (d : List (String × JVal)) : Nat :=
  match d.lookup "__status__" with
  | some (.jnum q) => q.num.toNat
  | some _ => 500
  | none => 500

/-- State shared by the module-call steps of one run, fixed after the
persist step (source lines 219-283). -/
structure RunCtx where
  req : Request
  env : Env
  mode : String
  video_bytes : List Nat
  video_name : String
  video_path : String
  audio_bytes : Option (List Nat)
  audio_name : Option String
  audio_path : Option String
  session_id : String
  ses_dir : String

/-- Source line 283: the correlation header on every outbound call. -/
def runHeaders (c : RunCtx) : List (String × String) :=
  [("X-Veritas-Session", c.session_id)]

/-- The video file part attached to the challenge, face, lipsync and vsr
calls: `(video_path.name, video_bytes, clip_video.content_type or
"application/octet-stream")`. -/
def videoPart (c : RunCtx) : MPFile :=
  ⟨"clip_video", c.video_name, c.video_bytes,
    optStrOrDefault c.req.clip_video.ctype "application/octet-stream"⟩

/-- The audio file part `(audio_path.name, audio_bytes,
clip_audio.content_type or "application/octet-stream")`. -/
def audioPartOf (c : RunCtx) (ab : List Nat) (an : String) : MPFile :=
  ⟨"clip_audio", an, ab,
    optStrOrDefault (match c.req.clip_audio with
      | some a => a.ctype
      | none => none) "application/octet-stream"⟩

/-- Step 7 (source 419-491): build and persist the proof, write the
integrity record, return the success envelope. -/
def step_proof (c : RunCtx) (challenge_score voice_score face_score lipsync_score vsr_score
    final_decision : JVal) (flags : List JVal) (trace : List Effect) : RunOutcome :=
  let proof_id := "PROOF-" ++ strUpper (strTake 16 c.env.proofHex)
  let proof_path := "proofs/" ++ proof_id ++ ".json"
  let sha_video := _sha256_file c.video_bytes
  let sha_audio := match c.audio_path, c.audio_bytes with
    | some _, some ab => some (_sha256_file ab)
    | _, _ => none
  let breakdown : Breakdown := ⟨voice_score, face_score, lipsync_score, challenge_score, vsr_score⟩
  let proof : ProofObj :=
    ⟨"proof_multimodal_v1", proof_id, c.req.policy_id, c.mode, c.session_id,
      final_decision, breakdown, flags, sha_video, sha_audio⟩
  let trace := trace ++ [.writeText proof_path, .writeText (c.ses_dir ++ "/sha256.json")]
  ⟨.okResp ⟨true, final_decision, proof_id, proof_path, breakdown, flags⟩ proof, trace⟩

/-- Step 6 (source 388-417): fusion evaluate over JSON, then flag
deduplication and truncation. -/
def step_fusion (c : RunCtx) (challenge_score challenge_decision voice_score face_score
    lipsync_score vsr_score : JVal) (flags : List JVal) (trace : List Effect) : RunOutcome :=
  let payload : JVal := .jobj
    [("policy_id", .jstr c.req.policy_id),
     ("thresholds", .jobj
       [("accept_face", .jnum c.req.accept_face), ("reject_face", .jnum c.req.reject_face),
        ("accept_voice", .jnum c.req.accept_voice), ("reject_voice", .jnum c.req.reject_voice)]),
     ("inputs", .jobj
       [("challenge", .jobj [("score", challenge_score), ("decision", challenge_decision)]),
        ("face", .jobj [("score", face_score)]),
        ("voice", .jobj [("score", voice_score)]),
        ("lipsync", .jobj [("score", lipsync_score)]),
        ("vsr", .jobj [("score", vsr_score)])])]
  let trace := trace ++ [.httpJson FUSION_EVALUATE_URL payload (runHeaders c)]
  match _post_json FUSION_EVALUATE_URL c.env.httpRetries c.env.fusionAttempts with
  | .error e => ⟨.raised e, trace⟩
  | .ok fres =>
    if jTruthy (dget fres "__http_error__") then
      let j := pyOr (dget fres "__json__") (.jobj [])
      ⟨_err (statusD fres) "FUSION_ERROR" "fusion evaluate failed"
        (some (pyOr (dgetV j "flags_summary") (.jarr []))), trace⟩
    else
      let final_decision := pyOr (dget fres "final_decision")
        (pyOr (dget fres "decision") (.jstr "INCONCLUSIVE"))
      let flags := flags ++ jElems (pyOr (dget fres "flags_summary")
        (pyOr (dget fres "flags") (.jarr [])))
      let flags := (dedupFirst flags).take 20
      step_proof c challenge_score voice_score face_score lipsync_score vsr_score
        final_decision flags trace

/-- Step 5C (source 369-386): VSR validate, only under STRICT_SILENT. -/
def step_vsr (c : RunCtx) (challenge_score challenge_decision voice_score face_score
    lipsync_score : JVal) (flags : List JVal) (trace : List Effect) : RunOutcome :=
  if c.req.policy_id = "STRICT_SILENT" then
    let trace := trace ++ [.httpMultipart VSR_VALIDATE_URL
      [("challenge_id", c.req.challenge_id)] [videoPart c] (runHeaders c)]
    match _post_multipart VSR_VALIDATE_URL c.env.httpRetries c.env.vsrAttempts with
    | .error e => ⟨.raised e, trace⟩
    | .ok vres =>
      if jTruthy (dget vres "__http_error__") then
        let j := pyOr (dget vres "__json__") (.jobj [])
        ⟨_err (statusD vres) "VSR_ERROR" "vsr failed"
          (some (pyOr (dgetV j "flags_vsr") (pyOr (dgetV j "flags_summary") (.jarr [])))), trace⟩
      else
        let vsr_score := pyOr (dget vres "score_vsr") (dget vres "vsr_score")
        let flags := flags ++ jElems (pyOr (dget vres "flags_vsr")
          (pyOr (dget vres "flags") (.jarr [])))
        step_fusion c challenge_score challenge_decision voice_score face_score
          lipsync_score vsr_score flags trace
  else
    step_fusion c challenge_score challenge_decision voice_score face_score
      lipsync_score .jnull flags trace

/-- Step 5B (source 330-367): voice verify then lipsync validate, only when
the policy is STRICT_STANDARD and the audio was read and persisted. -/
def step_voice_lipsync (c : RunCtx) (challenge_score challenge_decision face_score : JVal)
    (flags : List JVal) (trace : List Effect) : RunOutcome :=
  match (if c.req.policy_id = "STRICT_STANDARD" then c.audio_bytes else none),
      c.audio_path, c.audio_name with
  | some ab, some _, some an =>
    let trace := trace ++ [.httpMultipart VOICE_VERIFY_URL
      [("enrollment_id_voice", c.req.enrollment_id_voice.getD "")]
      [audioPartOf c ab an] (runHeaders c)]
    match _post_multipart VOICE_VERIFY_URL c.env.httpRetries c.env.voiceAttempts with
    | .error e => ⟨.raised e, trace⟩
    | .ok vres =>
      if jTruthy (dget vres "__http_error__") then
        let j := pyOr (dget vres "__json__") (.jobj [])
        ⟨_err (statusD vres) "VOICE_ERROR" "voice verify failed"
          (some (pyOr (dgetV j "flags_voice") (pyOr (dgetV j "flags_summary") (.jarr [])))), trace⟩
      else
        let voice_score := pyOr (dget vres "score_voice_match") (dget vres "voice_score")
        let flags := flags ++ jElems (pyOr (dget vres "flags_voice")
          (pyOr (dget vres "flags") (.jarr [])))
        let trace := trace ++ [.httpMultipart LIPSYNC_VALIDATE_URL
          [("challenge_id", c.req.challenge_id)]
          [videoPart c, audioPartOf c ab an] (runHeaders c)]
        match _post_multipart LIPSYNC_VALIDATE_URL c.env.httpRetries c.env.lipsyncAttempts with
        | .error e => ⟨.raised e, trace⟩
        | .ok lres =>
          if jTruthy (dget lres "__http_error__") then
            let j := pyOr (dget lres "__json__") (.jobj [])
            ⟨_err (statusD lres) "LIPSYNC_ERROR" "lipsync failed"
              (some (pyOr (dgetV j "flags_lipsync")
                (pyOr (dgetV j "flags_summary") (.jarr [])))), trace⟩
          else
            let lipsync_score := pyOr (dget lres "score_lipsync") (dget lres "lipsync_score")
            let flags := flags ++ jElems (pyOr (dget lres "flags_lipsync")
              (pyOr (dget lres "flags") (.jarr [])))
            step_vsr c challenge_score challenge_decision voice_score face_score
              lipsync_score flags trace
  | _, _, _ =>
    step_vsr c challenge_score challenge_decision .jnull face_score .jnull flags trace

/-- Step 5A (source 312-328): face verify. -/
def step_face (c : RunCtx) (challenge_score challenge_decision : JVal)
    (flags : List JVal) (trace : List Effect) : RunOutcome :=
  let trace := trace ++ [.httpMultipart FACE_VERIFY_URL
    [("enrollment_id_face", c.req.enrollment_id_face)] [videoPart c] (runHeaders c)]
  match _post_multipart FACE_VERIFY_URL c.env.httpRetries c.env.faceAttempts with
  | .error e => ⟨.raised e, trace⟩
  | .ok fres =>
    if jTruthy (dget fres "__http_error__") then
      let j := pyOr (dget fres "__json__") (.jobj [])
      ⟨_err (statusD fres) "FACE_ERROR" "face verify failed"
        (some (pyOr (dgetV j "flags_face") (pyOr (dgetV j "flags_summary") (.jarr [])))), trace⟩
    else
      let face_score := pyOr (dget fres "score_face_match") (dget fres "face_score")
      let flags := flags ++ jElems (pyOr (dget fres "flags_face")
        (pyOr (dget fres "flags") (.jarr [])))
      step_voice_lipsync c challenge_score challenge_decision face_score flags trace

/-- Step 4 (source 285-304): challenge validate, with the audio part
attached only for STRICT_STANDARD with audio read and persisted. -/
def step_challenge (c : RunCtx) (flags : List JVal) (trace : List Effect) : RunOutcome :=
  let files := match (if c.req.policy_id = "STRICT_STANDARD" then c.audio_bytes else none),
      c.audio_path, c.audio_name with
    | some ab, some _, some an => [videoPart c, audioPartOf c ab an]
    | _, _, _ => [videoPart c]
  let trace := trace ++ [.httpMultipart CHALLENGE_VALIDATE_URL
    [("challenge_id", c.req.challenge_id), ("mode", c.mode)] files (runHeaders c)]
  match _post_multipart CHALLENGE_VALIDATE_URL c.env.httpRetries c.env.chAttempts with
  | .error e => ⟨.raised e, trace⟩
  | .ok ch_res =>
    if jTruthy (dget ch_res "__http_error__") then
      let j := pyOr (dget ch_res "__json__") (.jobj [])
      ⟨_err (statusD ch_res) "CHALLENGE_ERROR" "challenge validate failed"
        (some (pyOr (dgetV j "flags_summary") (.jarr []))), trace⟩
    else
      let challenge_score := dget ch_res "score_challenge"
      let challenge_decision := dget ch_res "decision_challenge"
      let flags := flags ++ jElems (pyOr (dget ch_res "flags_challenge")
        (pyOr (dget ch_res "flags") (.jarr [])))
      step_face c challenge_score challenge_decision flags trace

/-- The filename hint for the persisted audio:
`(clip_audio.filename if clip_audio else "clip_audio.bin") or "clip_audio.bin"`. -/
def audioFilenameHint (req : Request) : String :=
  match req.clip_audio with
  | some a => optStrOrDefault a.filename "clip_audio.bin"
  | none => "clip_audio.bin"

/-- Step 3 (source 251-283): allocate the session, persist the media
verbatim, write the metadata record. -/
def step_persist (req : Request) (env : Env) (mode : String) (flags : List JVal)
    (video_bytes : List Nat) (audio_bytes : Option (List Nat)) (trace : List Effect) :
    RunOutcome :=
  let session_id := "SES-" ++ strUpper (strTake 16 env.sessionHex)
  let ses_dir := "sessions/" ++ session_id ++ "/raw"
  let trace := trace ++ [.mkdirp ses_dir]
  let video_name := "clip_video" ++
    strOrDefault (pathSuffix (optStrOrDefault req.clip_video.filename "clip_video.bin")) ".bin"
  let video_path := ses_dir ++ "/" ++ video_name
  let trace := trace ++ [.writeBytes video_path video_bytes]
  match (if req.policy_id = "STRICT_STANDARD" then audio_bytes else none) with
  | some ab =>
    let audio_name := "clip_audio" ++ strOrDefault (pathSuffix (audioFilenameHint req)) ".bin"
    let audio_path := ses_dir ++ "/" ++ audio_name
    let trace := trace ++ [.writeBytes audio_path ab, .writeText (ses_dir ++ "/metadata.json")]
    step_challenge
      ⟨req, env, mode, video_bytes, video_name, video_path,
        some ab, some audio_name, some audio_path, session_id, ses_dir⟩ flags trace
  | none =>
    let trace := trace ++ [.writeText (ses_dir ++ "/metadata.json")]
    step_challenge
      ⟨req, env, mode, video_bytes, video_name, video_path,
        none, none, none, session_id, ses_dir⟩ flags trace

/-- Step 2 (source 240-249): read the uploads and enforce the size
ceilings, video first, audio only for STRICT_STANDARD. -/
def step_read_guard (req : Request) (env : Env) (mode : String) (flags : List JVal) :
    RunOutcome :=
  let trace := [Effect.readUpload "clip_video"]
  let video_bytes := req.clip_video.content
  if env.maxVideoMB * 1024 * 1024 < video_bytes.length then
    ⟨_err 413 "VIDEO_TOO_LARGE" ("clip_video exceeds " ++ toString env.maxVideoMB ++ "MB") none,
      trace⟩
  else
    match (if req.policy_id = "STRICT_STANDARD" then req.clip_audio else none) with
    | some a =>
      let trace := trace ++ [Effect.readUpload "clip_audio"]
      let audio_bytes := a.content
      if env.maxAudioMB * 1024 * 1024 < audio_bytes.length then
        ⟨_err 413 "AUDIO_TOO_LARGE" ("clip_audio exceeds " ++ toString env.maxAudioMB ++ "MB") none,
          trace⟩
      else step_persist req env mode flags video_bytes (some audio_bytes) trace
    | none => step_persist req env mode flags video_bytes none trace

/-- The handler `multimodal_verify` (source 206-491): step 1 validates the
policy and required fields before any I/O, then hands over to the read,
persist and module-call steps. -/
def multimodal_verify (req : Request) (env : Env) : RunOutcome :=
  match _policy_to_mode req.policy_id with
  | .error _ => ⟨_err 400 "INVALID_POLICY" "policy_id not supported" none, []⟩
  | .ok mode =>
    if req.enrollment_id_face = "" then
      ⟨_err 400 "MISSING_FIELD" "enrollment_id_face required" none, []⟩
    else if req.policy_id = "STRICT_STANDARD" ∧ optStrOrDefault req.enrollment_id_voice "" = "" then
      ⟨_err 400 "MISSING_FIELD" "enrollment_id_voice required for STRICT_STANDARD" none, []⟩
    else if req.policy_id = "STRICT_STANDARD" ∧ req.clip_audio = none then
      ⟨_err 400 "MISSING_FIELD" "clip_audio required for STRICT_STANDARD" none, []⟩
    else
      let flags : List JVal :=
        if req.policy_id = "STRICT_SILENT" ∧ req.clip_audio ≠ none then
          [.jstr "AUDIO_IGNORED_SILENT"]
        else []
      step_read_guard req env mode flags

/-!
Helper lemmas about deduplication and chunked hashing.
-/

theorem dedupFirstAux_sublist {α : Type} [DecidableEq α] (l seen : List α) :
    List.Sublist (dedupFirstAux seen l) l := by
  induction l generalizing seen with
  | nil => simp [dedupFirstAux]
  | cons x xs ih =>
    by_cases hx : x ∈ seen
    · rw [dedupFirstAux, if_pos hx]
      exact (ih seen).trans (List.sublist_cons_self x xs)
    · rw [dedupFirstAux, if_neg hx]
      exact List.Sublist.cons₂ x (ih (x :: seen))

theorem mem_dedupFirstAux {α : Type} [DecidableEq α] {a : α} (l seen : List α) :
    a ∈ dedupFirstAux seen l → a ∉ seen := by
  induction l generalizing seen with
  | nil => simp [dedupFirstAux]
  | cons x xs ih =>
    by_cases hx : x ∈ seen
    · rw [dedupFirstAux, if_pos hx]
      exact ih seen
    · rw [dedupFirstAux, if_neg hx]
      intro h hseen
      rcases List.mem_cons.mp h with rfl | h2
      · exact hx hseen
      · exact ih (x :: seen) h2 (List.mem_cons_of_mem _ hseen)

theorem nodup_dedupFirstAux {α : Type} [DecidableEq α] (l seen : List α) :
    (dedupFirstAux seen l).Nodup := by
  induction l generalizing seen with
  | nil => simp [dedupFirstAux]
  | cons x xs ih =>
    by_cases hx : x ∈ seen
    · rw [dedupFirstAux, if_pos hx]
      exact ih seen
    · rw [dedupFirstAux, if_neg hx]
      refine List.nodup_cons.mpr ⟨?_, ih (x :: seen)⟩
      intro hmem
      exact mem_dedupFirstAux xs (x :: seen) hmem (List.mem_cons_self x seen)

theorem head_mem_dedupFirst_take {α : Type} [DecidableEq α] (x : α) (l : List α)
    (k : Nat) (hk : 0 < k) : x ∈ (dedupFirst (x :: l)).take k := by
  rw [dedupFirst, dedupFirstAux, if_neg (List.not_mem_nil x)]
  match k, hk with
  | k + 1, _ => exact List.mem_of_mem_head? (by simp)

theorem foldl_sha256_update (cs : List (List Nat)) (acc : List Nat) :
    List.foldl sha256_update ⟨acc⟩ cs = ⟨acc ++ cs.flatten⟩ := by
  induction cs generalizing acc with
  | nil => simp
  | cons c cs ih => simp [sha256_update, ih, List.append_assoc]

theorem readChunks_flatten_bounded {α : Type} (n : Nat) (hn : n ≠ 0) (k : Nat) :
    ∀ (l : List α), l.length ≤ k → (readChunks n l).flatten = l := by
  induction k with
  | zero =>
    intro l hl
    match l with
    | [] => simp [readChunks]
  | succ k ih =>
    intro l hl
    match l with
    | [] => simp [readChunks]
    | x :: xs =>
      rw [readChunks, if_neg hn]
      simp only [List.flatten_cons]
      rw [ih _ (by simp at hl ⊢; omega)]
      exact List.take_append_drop n (x :: xs)

theorem readChunks_flatten {α : Type} (n : Nat) (hn : n ≠ 0) (l : List α) :
    (readChunks n l).flatten = l :=
  readChunks_flatten_bounded n hn l.length l (Nat.le_refl _)

/-!
Concrete fixtures used by witnesses and counterexamples.
-/

def vidSample : Upload := ⟨some "v.mp4", some "video/mp4", [1, 2, 3]⟩

def audSample : Upload := ⟨some "a.wav", some "audio/wav", [9, 9]⟩

def httpOk (body : List (String × JVal)) : HttpResp := ⟨200, true, body, ""⟩

def httpErr500 (body : List (String × JVal)) : HttpResp := ⟨500, true, body, ""⟩

/-- A base environment whose module oracles are never consulted. -/
def envBase : Env :=
  ⟨1, 50, 15, "abcdef0123456789ff", "cafebabe01234567ff", "2026-10-12T00:00:00Z",
   fun _ => .error "unused", fun _ => .error "unused", fun _ => .error "unused",
   fun _ => .error "unused", fun _ => .error "unused", fun _ => .error "unused"⟩

def reqSilentSample : Request :=
  ⟨"STRICT_SILENT", "face-1", none, "CH-1", 85 / 100, 55 / 100, 85 / 100, 55 / 100,
    vidSample, some audSample⟩

def ctxSample (env : Env) : RunCtx :=
  ⟨reqSilentSample, env, "SILENT", [1, 2, 3], "clip_video.mp4",
    "sessions/SES-X/raw/clip_video.mp4", none, none, none, "SES-X", "sessions/SES-X/raw"⟩

/-- An effect that does not involve the audio upload: not a read of the
audio part, and any multipart call attaches only `clip_video` file parts.
(The fusion call JSON payload carries scores only; `JVal` holds no raw
bytes at all, so a `httpJson` effect cannot carry the clip.) -/
def audioFreeEffect : Effect → Prop
  | .readUpload w => w ≠ "clip_audio"
  | .httpMultipart _ _ files _ => ∀ f ∈ files, f.fieldName = "clip_video"
  | _ => True

/-- The `breakdown` object of a result, when it has one (`_err` responses
carry none). -/
def breakdownOf : PipeResult → Option Breakdown
  | .okResp b _ => some b.breakdown
  | _ => none

/-- The `final_decision` field of a result, when it has one. -/
def finalDecisionOf : PipeResult → Option JVal
  | .okResp b _ => some b.final_decision
  | _ => none

/-- The `error_code` of a result, when it is an `_err` response. -/
def resultCode : PipeResult → Option String
  | .errResp _ b => some b.error_code
  | _ => none

/-- Does this effect call the given URL? -/
def Effect.callsUrl (u : String) : Effect → Bool
  | .httpMultipart url _ _ _ => url == u
  | .httpJson url _ _ => url == u
  | _ => false

/-- Does the trace contain a call to the given URL? -/
def callsTo (u : String) (tr : List Effect) : Bool := tr.any (Effect.callsUrl u)

/-!
Claim theorems.
-/

/-- Claim C3: a request whose policy_id is outside STRICT_STANDARD and
STRICT_SILENT fails with INVALID_POLICY over HTTP 400, and the run performs
no I/O at all (empty effect trace: no upload read, no file written, no
module called). -/
theorem c3_invalid_policy_no_io (req : Request) (env : Env)
    (h1 : req.policy_id ≠ "STRICT_STANDARD") (h2 : req.policy_id ≠ "STRICT_SILENT") :
    multimodal_verify req env =
      ⟨_err 400 "INVALID_POLICY" "policy_id not supported" none, []⟩ := by
  simp [multimodal_verify, _policy_to_mode, h1, h2]

theorem c3_witness :
    ({ reqSilentSample with policy_id := "LENIENT" } : Request).policy_id ≠ "STRICT_STANDARD" ∧
    multimodal_verify { reqSilentSample with policy_id := "LENIENT" } envBase =
      ⟨_err 400 "INVALID_POLICY" "policy_id not supported" none, []⟩ :=
  ⟨by decide,
    c3_invalid_policy_no_io { reqSilentSample with policy_id := "LENIENT" } envBase
      (by decide) (by decide)⟩

/-- Claim C8: the streaming chunked file hash agrees with hashing the whole
byte sequence at once, for every file content, and hashing the same byte
sequence twice yields identical digests. -/
theorem c8_stream_hash_eq_whole :
    (∀ data : List Nat, _sha256_file data = _sha256_bytes data) ∧
    (∀ d1 d2 : List Nat, d1 = d2 → _sha256_bytes d1 = _sha256_bytes d2) := by
  constructor
  · intro data
    unfold _sha256_file _sha256_bytes
    rw [show sha256_init = (⟨[]⟩ : Sha256Ctx) from rfl, foldl_sha256_update,
      readChunks_flatten (1024 * 1024) (by decide) data]
    rfl
  · intro d1 d2 h
    rw [h]

theorem c8_witness :
    _sha256_file [0, 255, 17] = _sha256_bytes [0, 255, 17] ∧
    ([7, 7] : List Nat) = [7, 7] ∧ _sha256_bytes [7, 7] = _sha256_bytes [7, 7] :=
  ⟨c8_stream_hash_eq_whole.1 [0, 255, 17], rfl, c8_stream_hash_eq_whole.2 [7, 7] [7, 7] rfl⟩

/-- Claim C5: the flag list surfaced in the success response and embedded in
the proof is the accumulated flag sequence deduplicated preserving first-seen
order and truncated to at most 20 entries; in particular [A, B, A, C] yields
[A, B, C]. -/
theorem c5_flags_dedup :
    dedupFirst [JVal.jstr "A", JVal.jstr "B", JVal.jstr "A", JVal.jstr "C"] =
      [JVal.jstr "A", JVal.jstr "B", JVal.jstr "C"] ∧
    (∀ l : List JVal, ((dedupFirst l).take 20).Nodup ∧
      List.Sublist ((dedupFirst l).take 20) l ∧ ((dedupFirst l).take 20).length ≤ 20) ∧
    (∀ (c : RunCtx) (s1 s2 s3 s4 s5 s6 : JVal) (flags : List JVal) (trace : List Effect)
      (fres : List (String × JVal)),
      _post_json FUSION_EVALUATE_URL c.env.httpRetries c.env.fusionAttempts = .ok fres →
      jTruthy (dget fres "__http_error__") = false →
      ∃ body proof trc,
        step_fusion c s1 s2 s3 s4 s5 s6 flags trace = ⟨.okResp body proof, trc⟩ ∧
        body.flags_summary = (dedupFirst (flags ++ jElems (pyOr (dget fres "flags_summary")
          (pyOr (dget fres "flags") (.jarr []))))).take 20 ∧
        proof.flags_summary = body.flags_summary) := by
  refine ⟨by decide, ?_, ?_⟩
  · intro l
    refine ⟨(List.take_sublist _ _).nodup (nodup_dedupFirstAux l []), ?_, ?_⟩
    · exact (List.take_sublist _ _).trans (dedupFirstAux_sublist l [])
    · exact List.length_take_le _ _
  · intro c s1 s2 s3 s4 s5 s6 flags trace fres hok herr
    simp only [step_fusion, hok, herr, Bool.false_eq_true, if_false, step_proof]
    exact ⟨_, _, _, rfl, rfl, rfl⟩

def envFusionOnly : Env :=
  { envBase with fusionAttempts := fun _ => .ok (httpOk [("final_decision", .jstr "ACCEPT")]) }

theorem c5_witness :
    _post_json FUSION_EVALUATE_URL (ctxSample envFusionOnly).env.httpRetries
      (ctxSample envFusionOnly).env.fusionAttempts = .ok [("final_decision", .jstr "ACCEPT")] ∧
    ∃ body proof trc,
      step_fusion (ctxSample envFusionOnly) .jnull .jnull .jnull .jnull .jnull .jnull
        [.jstr "A", .jstr "B", .jstr "A", .jstr "C"] [] = ⟨.okResp body proof, trc⟩ ∧
      body.flags_summary = (dedupFirst ([JVal.jstr "A", .jstr "B", .jstr "A", .jstr "C"] ++
        jElems (pyOr (dget [("final_decision", .jstr "ACCEPT")] "flags_summary")
          (pyOr (dget [("final_decision", .jstr "ACCEPT")] "flags") (.jarr []))))).take 20 ∧
      proof.flags_summary = body.flags_summary :=
  ⟨rfl,
    c5_flags_dedup.2.2 (ctxSample envFusionOnly) .jnull .jnull .jnull .jnull .jnull .jnull
      [.jstr "A", .jstr "B", .jstr "A", .jstr "C"] [] [("final_decision", .jstr "ACCEPT")]
      rfl (by decide)⟩

/-- Claim C4: a STRICT_SILENT request supplying an audio clip is accepted
(here: under the policy and field requirements for SILENT, with the video
within its ceiling and the required modules succeeding, the run completes
with a success response, whatever the audio clip holds), the flag
AUDIO_IGNORED_SILENT appears in the flags_summary of the response and of the proof:
flags_summary, no module call carries an audio part (challenge, face, vsr
multipart calls attach only the video; the fusion JSON payload holds no
bytes), and the audio is never read nor persisted (the only bytes written
are those of the video, and no audio digest enters the proof). -/
theorem c4_silent_audio_accepted_flagged_excluded (req : Request) (env : Env) (a : Upload)
    (chd fad vsd fud : List (String × JVal))
    (hp : req.policy_id = "STRICT_SILENT")
    (hf : req.enrollment_id_face ≠ "")
    (ha : req.clip_audio = some a)
    (hv : req.clip_video.content.length ≤ env.maxVideoMB * 1024 * 1024)
    (hch : _post_multipart CHALLENGE_VALIDATE_URL env.httpRetries env.chAttempts = .ok chd)
    (hch2 : jTruthy (dget chd "__http_error__") = false)
    (hfa : _post_multipart FACE_VERIFY_URL env.httpRetries env.faceAttempts = .ok fad)
    (hfa2 : jTruthy (dget fad "__http_error__") = false)
    (hvs : _post_multipart VSR_VALIDATE_URL env.httpRetries env.vsrAttempts = .ok vsd)
    (hvs2 : jTruthy (dget vsd "__http_error__") = false)
    (hfu : _post_json FUSION_EVALUATE_URL env.httpRetries env.fusionAttempts = .ok fud)
    (hfu2 : jTruthy (dget fud "__http_error__") = false) :
    (∃ body proof trc, multimodal_verify req env = ⟨.okResp body proof, trc⟩ ∧
       JVal.jstr "AUDIO_IGNORED_SILENT" ∈ body.flags_summary ∧
       proof.flags_summary = body.flags_summary ∧ proof.sha_audio = none) ∧
    (∀ e ∈ (multimodal_verify req env).trace, audioFreeEffect e) ∧
    (∀ p b, Effect.writeBytes p b ∈ (multimodal_verify req env).trace →
      b = req.clip_video.content) := by
  refine ⟨?_, ?_, ?_⟩
  · simp [multimodal_verify, _policy_to_mode, hp, hf, ha, step_read_guard,
      step_persist, step_challenge, step_face, step_voice_lipsync, step_vsr, step_fusion,
      step_proof, hch, hch2, hfa, hfa2, hvs, hvs2, hfu, hfu2, Nat.not_lt.mpr hv,
      show ("STRICT_SILENT":String) ≠ "STRICT_STANDARD" from by decide]
    exact ⟨_, _, ⟨rfl, rfl⟩, head_mem_dedupFirst_take _ _ 20 (by decide), rfl, rfl⟩
  · intro e he
    simp [multimodal_verify, _policy_to_mode, hp, hf, ha, step_read_guard,
      step_persist, step_challenge, step_face, step_voice_lipsync, step_vsr, step_fusion,
      step_proof, hch, hch2, hfa, hfa2, hvs, hvs2, hfu, hfu2, Nat.not_lt.mpr hv,
      show ("STRICT_SILENT":String) ≠ "STRICT_STANDARD" from by decide] at he
    rcases he with rfl | rfl | rfl | rfl | rfl | rfl | rfl | rfl | rfl | rfl <;>
      simp [audioFreeEffect, videoPart]
  · intro p b hb
    simp [multimodal_verify, _policy_to_mode, hp, hf, ha, step_read_guard,
      step_persist, step_challenge, step_face, step_voice_lipsync, step_vsr, step_fusion,
      step_proof, hch, hch2, hfa, hfa2, hvs, hvs2, hfu, hfu2, Nat.not_lt.mpr hv,
      show ("STRICT_SILENT":String) ≠ "STRICT_STANDARD" from by decide] at hb
    tauto

def chOkBody : List (String × JVal) :=
  [("score_challenge", .jnum 1), ("decision_challenge", .jstr "ACCEPT"),
   ("flags", .jarr [.jstr "F1"])]

def faceOkBody : List (String × JVal) := [("score_face_match", .jnum (92 / 100))]

def vsrOkBody : List (String × JVal) :=
  [("score_vsr", .jnum (7 / 10)), ("flags_vsr", .jarr [.jstr "F1", .jstr "F2"])]

def fusionOkBody : List (String × JVal) := [("final_decision", .jstr "ACCEPT")]

def envSilentOK : Env :=
  { envBase with
    chAttempts := fun _ => .ok (httpOk chOkBody),
    faceAttempts := fun _ => .ok (httpOk faceOkBody),
    vsrAttempts := fun _ => .ok (httpOk vsrOkBody),
    fusionAttempts := fun _ => .ok (httpOk fusionOkBody) }

theorem c4_witness :
    (∃ body proof trc,
       multimodal_verify reqSilentSample envSilentOK = ⟨.okResp body proof, trc⟩ ∧
       JVal.jstr "AUDIO_IGNORED_SILENT" ∈ body.flags_summary ∧
       proof.flags_summary = body.flags_summary ∧ proof.sha_audio = none) ∧
    (∀ e ∈ (multimodal_verify reqSilentSample envSilentOK).trace, audioFreeEffect e) ∧
    (∀ p b, Effect.writeBytes p b ∈ (multimodal_verify reqSilentSample envSilentOK).trace →
      b = reqSilentSample.clip_video.content) :=
  c4_silent_audio_accepted_flagged_excluded reqSilentSample envSilentOK audSample
    chOkBody faceOkBody vsrOkBody fusionOkBody
    rfl (by decide) rfl (by decide) rfl rfl rfl rfl rfl rfl rfl rfl

/-- Claim C9: score extraction uses Python falsy-coalescing `or` chains, so
a module success response reporting score exactly 0 (or any JSON-falsy
value) under its primary field name has the value of the alternate field (null
when the alternate is absent) recorded in the breakdown and the proof
instead of the reported 0. Shown generically for `pyOr` and end-to-end on
the SILENT pipeline for the face score (primary `score_face_match`) and the
vsr score (primary `score_vsr`); the voice and lipsync extractions in
`step_voice_lipsync` are the same `pyOr` chain over their two field
names. -/
theorem c9_falsy_score_coalesced (req : Request) (env : Env) (a : Upload)
    (chd fad vsd fud : List (String × JVal))
    (hp : req.policy_id = "STRICT_SILENT")
    (hf : req.enrollment_id_face ≠ "")
    (ha : req.clip_audio = some a)
    (hv : req.clip_video.content.length ≤ env.maxVideoMB * 1024 * 1024)
    (hch : _post_multipart CHALLENGE_VALIDATE_URL env.httpRetries env.chAttempts = .ok chd)
    (hch2 : jTruthy (dget chd "__http_error__") = false)
    (hfa : _post_multipart FACE_VERIFY_URL env.httpRetries env.faceAttempts = .ok fad)
    (hfa2 : jTruthy (dget fad "__http_error__") = false)
    (hfa0 : dget fad "score_face_match" = .jnum 0)
    (hvs : _post_multipart VSR_VALIDATE_URL env.httpRetries env.vsrAttempts = .ok vsd)
    (hvs2 : jTruthy (dget vsd "__http_error__") = false)
    (hvs0 : dget vsd "score_vsr" = .jnum 0)
    (hfu : _post_json FUSION_EVALUATE_URL env.httpRetries env.fusionAttempts = .ok fud)
    (hfu2 : jTruthy (dget fud "__http_error__") = false) :
    (∀ v w : JVal, jTruthy v = false → pyOr v w = w) ∧
    (∃ body proof trc, multimodal_verify req env = ⟨.okResp body proof, trc⟩ ∧
       body.breakdown.face_score = dget fad "face_score" ∧
       body.breakdown.vsr_score = dget vsd "vsr_score" ∧
       proof.breakdown = body.breakdown) := by
  constructor
  · intro v w hva
    simp [pyOr, hva]
  · simp [multimodal_verify, _policy_to_mode, hp, hf, ha, step_read_guard,
      step_persist, step_challenge, step_face, step_voice_lipsync, step_vsr, step_fusion,
      step_proof, hch, hch2, hfa, hfa2, hvs, hvs2, hfu, hfu2, Nat.not_lt.mpr hv,
      show ("STRICT_SILENT":String) ≠ "STRICT_STANDARD" from by decide]
    exact ⟨_, _, ⟨rfl, rfl⟩, by simp [hfa0, pyOr, jTruthy], by simp [hvs0, pyOr, jTruthy], rfl⟩

def faceZeroBody : List (String × JVal) :=
  [("score_face_match", .jnum 0), ("face_score", .jnum (1 / 2))]

def vsrZeroBody : List (String × JVal) := [("score_vsr", .jnum 0)]

def envSilentZeroScores : Env :=
  { envSilentOK with
    faceAttempts := fun _ => .ok (httpOk faceZeroBody),
    vsrAttempts := fun _ => .ok (httpOk vsrZeroBody) }

theorem c9_witness :
    (∀ v w : JVal, jTruthy v = false → pyOr v w = w) ∧
    (∃ body proof trc,
       multimodal_verify reqSilentSample envSilentZeroScores = ⟨.okResp body proof, trc⟩ ∧
       body.breakdown.face_score = dget faceZeroBody "face_score" ∧
       body.breakdown.vsr_score = dget vsrZeroBody "vsr_score" ∧
       proof.breakdown = body.breakdown) :=
  c9_falsy_score_coalesced reqSilentSample envSilentZeroScores audSample
    chOkBody faceZeroBody vsrZeroBody fusionOkBody
    rfl (by decide) rfl (by decide) rfl rfl rfl rfl rfl rfl rfl rfl rfl rfl

/-- Claim C2 (amended): when the Face module call returns an HTTP error the
pipeline aborts immediately and no Voice, Lip-sync, VSR or Fusion call is
ever issued, under either policy; the response is the `_err` envelope with
code FACE_ERROR and the flags of the error body of the face module, and it
carries no `breakdown` object at all (rather than a breakdown with null
voice/lipsync/vsr/fusion fields, which only success responses have). -/
theorem c2_face_error_short_circuits :
    (∀ (req : Request) (env : Env) (chd fad : List (String × JVal)),
      req.policy_id = "STRICT_SILENT" → req.enrollment_id_face ≠ "" →
      req.clip_video.content.length ≤ env.maxVideoMB * 1024 * 1024 →
      _post_multipart CHALLENGE_VALIDATE_URL env.httpRetries env.chAttempts = .ok chd →
      jTruthy (dget chd "__http_error__") = false →
      _post_multipart FACE_VERIFY_URL env.httpRetries env.faceAttempts = .ok fad →
      jTruthy (dget fad "__http_error__") = true →
      (multimodal_verify req env).result =
        _err (statusD fad) "FACE_ERROR" "face verify failed"
          (some (pyOr (dgetV (pyOr (dget fad "__json__") (.jobj [])) "flags_face")
            (pyOr (dgetV (pyOr (dget fad "__json__") (.jobj [])) "flags_summary") (.jarr [])))) ∧
      breakdownOf (multimodal_verify req env).result = none ∧
      callsTo VOICE_VERIFY_URL (multimodal_verify req env).trace = false ∧
      callsTo LIPSYNC_VALIDATE_URL (multimodal_verify req env).trace = false ∧
      callsTo VSR_VALIDATE_URL (multimodal_verify req env).trace = false ∧
      callsTo FUSION_EVALUATE_URL (multimodal_verify req env).trace = false) ∧
    (∀ (req : Request) (env : Env) (a : Upload) (chd fad : List (String × JVal)),
      req.policy_id = "STRICT_STANDARD" → req.enrollment_id_face ≠ "" →
      optStrOrDefault req.enrollment_id_voice "" ≠ "" → req.clip_audio = some a →
      req.clip_video.content.length ≤ env.maxVideoMB * 1024 * 1024 →
      a.content.length ≤ env.maxAudioMB * 1024 * 1024 →
      _post_multipart CHALLENGE_VALIDATE_URL env.httpRetries env.chAttempts = .ok chd →
      jTruthy (dget chd "__http_error__") = false →
      _post_multipart FACE_VERIFY_URL env.httpRetries env.faceAttempts = .ok fad →
      jTruthy (dget fad "__http_error__") = true →
      (multimodal_verify req env).result =
        _err (statusD fad) "FACE_ERROR" "face verify failed"
          (some (pyOr (dgetV (pyOr (dget fad "__json__") (.jobj [])) "flags_face")
            (pyOr (dgetV (pyOr (dget fad "__json__") (.jobj [])) "flags_summary") (.jarr [])))) ∧
      breakdownOf (multimodal_verify req env).result = none ∧
      callsTo VOICE_VERIFY_URL (multimodal_verify req env).trace = false ∧
      callsTo LIPSYNC_VALIDATE_URL (multimodal_verify req env).trace = false ∧
      callsTo VSR_VALIDATE_URL (multimodal_verify req env).trace = false ∧
      callsTo FUSION_EVALUATE_URL (multimodal_verify req env).trace = false) := by
  constructor
  · intro req env chd fad hp hf hv hch hch2 hfa hfa2
    refine ⟨?_, ?_, ?_, ?_, ?_, ?_⟩ <;>
      simp [multimodal_verify, _policy_to_mode, hp, hf, step_read_guard,
        step_persist, step_challenge, step_face, hch, hch2, hfa, hfa2, Nat.not_lt.mpr hv,
        callsTo, Effect.callsUrl, breakdownOf, _err,
        show ("STRICT_SILENT":String) ≠ "STRICT_STANDARD" from by decide,
        show (CHALLENGE_VALIDATE_URL == VOICE_VERIFY_URL) = false from by decide,
        show (CHALLENGE_VALIDATE_URL == LIPSYNC_VALIDATE_URL) = false from by decide,
        show (CHALLENGE_VALIDATE_URL == VSR_VALIDATE_URL) = false from by decide,
        show (CHALLENGE_VALIDATE_URL == FUSION_EVALUATE_URL) = false from by decide,
        show (FACE_VERIFY_URL == VOICE_VERIFY_URL) = false from by decide,
        show (FACE_VERIFY_URL == LIPSYNC_VALIDATE_URL) = false from by decide,
        show (FACE_VERIFY_URL == VSR_VALIDATE_URL) = false from by decide,
        show (FACE_VERIFY_URL == FUSION_EVALUATE_URL) = false from by decide]
  · intro req env a chd fad hp hf hvv ha hv haud hch hch2 hfa hfa2
    refine ⟨?_, ?_, ?_, ?_, ?_, ?_⟩ <;>
      simp [multimodal_verify, _policy_to_mode, hp, hf, hvv, ha, step_read_guard,
        step_persist, step_challenge, step_face, hch, hch2, hfa, hfa2, Nat.not_lt.mpr hv,
        Nat.not_lt.mpr haud, callsTo, Effect.callsUrl, breakdownOf, _err,
        show ("STRICT_STANDARD":String) ≠ "STRICT_SILENT" from by decide,
        show (CHALLENGE_VALIDATE_URL == VOICE_VERIFY_URL) = false from by decide,
        show (CHALLENGE_VALIDATE_URL == LIPSYNC_VALIDATE_URL) = false from by decide,
        show (CHALLENGE_VALIDATE_URL == VSR_VALIDATE_URL) = false from by decide,
        show (CHALLENGE_VALIDATE_URL == FUSION_EVALUATE_URL) = false from by decide,
        show (FACE_VERIFY_URL == VOICE_VERIFY_URL) = false from by decide,
        show (FACE_VERIFY_URL == LIPSYNC_VALIDATE_URL) = false from by decide,
        show (FACE_VERIFY_URL == VSR_VALIDATE_URL) = false from by decide,
        show (FACE_VERIFY_URL == FUSION_EVALUATE_URL) = false from by decide]

def envSilentFaceErr : Env :=
  { envBase with
    chAttempts := fun _ => .ok (httpOk chOkBody),
    faceAttempts := fun _ => .ok (httpErr500 []) }

/-- Claim C2 (counterexample to the claim as stated): a concrete run whose
Face call returns HTTP 500 short-circuits, but its response is the error
envelope without any breakdown (`breakdownOf` is `none`), so the claimed
"breakdown with voice_score, lipsync_score, vsr_score and fusion null"
does not exist in the response. -/
theorem c2_counterexample :
    breakdownOf (multimodal_verify reqSilentSample envSilentFaceErr).result = none ∧
    (multimodal_verify reqSilentSample envSilentFaceErr).result =
      .errResp 500 ⟨false, "FACE_ERROR", "face verify failed", .jarr []⟩ ∧
    callsTo VOICE_VERIFY_URL (multimodal_verify reqSilentSample envSilentFaceErr).trace = false ∧
    callsTo VSR_VALIDATE_URL (multimodal_verify reqSilentSample envSilentFaceErr).trace = false ∧
    callsTo FUSION_EVALUATE_URL (multimodal_verify reqSilentSample envSilentFaceErr).trace
      = false := by
  refine ⟨?_, ?_, ?_, ?_, ?_⟩ <;> decide

def faceErrDict : List (String × JVal) := respToDict (httpErr500 [])

theorem c2_witness :
    (multimodal_verify reqSilentSample envSilentFaceErr).result =
      _err (statusD faceErrDict) "FACE_ERROR" "face verify failed"
        (some (pyOr (dgetV (pyOr (dget faceErrDict "__json__") (.jobj [])) "flags_face")
          (pyOr (dgetV (pyOr (dget faceErrDict "__json__") (.jobj [])) "flags_summary")
            (.jarr [])))) ∧
    breakdownOf (multimodal_verify reqSilentSample envSilentFaceErr).result = none ∧
    callsTo VOICE_VERIFY_URL (multimodal_verify reqSilentSample envSilentFaceErr).trace = false ∧
    callsTo LIPSYNC_VALIDATE_URL (multimodal_verify reqSilentSample envSilentFaceErr).trace
      = false ∧
    callsTo VSR_VALIDATE_URL (multimodal_verify reqSilentSample envSilentFaceErr).trace = false ∧
    callsTo FUSION_EVALUATE_URL (multimodal_verify reqSilentSample envSilentFaceErr).trace
      = false :=
  c2_face_error_short_circuits.1 reqSilentSample envSilentFaceErr chOkBody faceErrDict
    rfl (by decide) (by decide) rfl rfl rfl rfl

theorem policy_mode_cases {p m : String} (h : _policy_to_mode p = .ok m) :
    (p = "STRICT_STANDARD" ∧ m = "SPOKEN") ∨ (p = "STRICT_SILENT" ∧ m = "SILENT") := by
  by_cases h1 : p = "STRICT_STANDARD"
  · simp [_policy_to_mode, h1] at h
    exact Or.inl ⟨h1, h.symm⟩
  · by_cases h2 : p = "STRICT_SILENT"
    · simp [_policy_to_mode, h1, h2] at h
      exact Or.inr ⟨h2, h.symm⟩
    · simp [_policy_to_mode, h1, h2] at h

/-- Claim C7: a request whose video clip is one byte over the ceiling of
MAX_VIDEO_MB megabytes fails with VIDEO_TOO_LARGE at HTTP 413; the only
effect of the run is the read of the video upload, so no downstream module
is called and no media file (in particular not the oversized clip) is
written to session evidence. Stated for any request that passes the
policy/field validation, under either policy. -/
theorem c7_video_too_large_rejected (req : Request) (env : Env) (mode : String)
    (hmode : _policy_to_mode req.policy_id = .ok mode)
    (hf : req.enrollment_id_face ≠ "")
    (hstd : req.policy_id = "STRICT_STANDARD" →
      optStrOrDefault req.enrollment_id_voice "" ≠ "" ∧ req.clip_audio ≠ none)
    (hsize : req.clip_video.content.length = env.maxVideoMB * 1024 * 1024 + 1) :
    multimodal_verify req env =
      ⟨_err 413 "VIDEO_TOO_LARGE" ("clip_video exceeds " ++ toString env.maxVideoMB ++ "MB") none,
        [.readUpload "clip_video"]⟩ ∧
    (∀ p b, Effect.writeBytes p b ∉ (multimodal_verify req env).trace) ∧
    (∀ u, callsTo u (multimodal_verify req env).trace = false) := by
  have hlt : env.maxVideoMB * 1024 * 1024 < req.clip_video.content.length := by
    rw [hsize]; omega
  have hmain : multimodal_verify req env =
      ⟨_err 413 "VIDEO_TOO_LARGE" ("clip_video exceeds " ++ toString env.maxVideoMB ++ "MB") none,
        [.readUpload "clip_video"]⟩ := by
    rcases policy_mode_cases hmode with ⟨hp, hm⟩ | ⟨hp, hm⟩
    · rcases hstd hp with ⟨hvv, hca⟩
      simp [multimodal_verify, _policy_to_mode, hp, hm, hf, hvv, hca,
        step_read_guard, hlt,
        show ("STRICT_STANDARD":String) ≠ "STRICT_SILENT" from by decide]
    · simp [multimodal_verify, _policy_to_mode, hp, hm, hf, step_read_guard, hlt,
        show ("STRICT_SILENT":String) ≠ "STRICT_STANDARD" from by decide]
  refine ⟨hmain, ?_, ?_⟩
  · intro p b
    rw [hmain]
    simp
  · intro u
    rw [hmain]
    simp [callsTo, Effect.callsUrl]

def reqTinyOver : Request :=
  ⟨"STRICT_SILENT", "face-1", none, "CH-1", 85 / 100, 55 / 100, 85 / 100, 55 / 100,
    ⟨some "v.mp4", some "video/mp4", [7]⟩, none⟩

def envZeroVideoCap : Env := { envBase with maxVideoMB := 0 }

theorem c7_witness :
    multimodal_verify reqTinyOver envZeroVideoCap =
      ⟨_err 413 "VIDEO_TOO_LARGE"
        ("clip_video exceeds " ++ toString envZeroVideoCap.maxVideoMB ++ "MB") none,
        [.readUpload "clip_video"]⟩ ∧
    (∀ p b, Effect.writeBytes p b ∉ (multimodal_verify reqTinyOver envZeroVideoCap).trace) ∧
    (∀ u, callsTo u (multimodal_verify reqTinyOver envZeroVideoCap).trace = false) :=
  c7_video_too_large_rejected reqTinyOver envZeroVideoCap "SILENT" rfl (by decide)
    (fun h => absurd h (by decide)) (by decide)

/-- Claim C6 (amended): when the fusion success response field `final_decision`
is absent (or JSON-falsy), the code first falls back to the alternate field
`decision`; only when that is also absent or falsy does it set the explicit
sentinel "INCONCLUSIVE" in both the response and the proof. It is never left
absent, but a present truthy `decision` wins over the sentinel. -/
theorem c6_final_decision_fallback (c : RunCtx) (s1 s2 s3 s4 s5 s6 : JVal)
    (flags : List JVal) (trace : List Effect) (fres : List (String × JVal))
    (hok : _post_json FUSION_EVALUATE_URL c.env.httpRetries c.env.fusionAttempts = .ok fres)
    (herr : jTruthy (dget fres "__http_error__") = false) :
    (jTruthy (dget fres "final_decision") = false → jTruthy (dget fres "decision") = false →
      ∃ body proof trc,
        step_fusion c s1 s2 s3 s4 s5 s6 flags trace = ⟨.okResp body proof, trc⟩ ∧
        body.final_decision = .jstr "INCONCLUSIVE" ∧
        proof.final_decision = .jstr "INCONCLUSIVE") ∧
    (jTruthy (dget fres "final_decision") = false → jTruthy (dget fres "decision") = true →
      ∃ body proof trc,
        step_fusion c s1 s2 s3 s4 s5 s6 flags trace = ⟨.okResp body proof, trc⟩ ∧
        body.final_decision = dget fres "decision" ∧
        proof.final_decision = dget fres "decision") := by
  constructor
  · intro h1 h2
    simp only [step_fusion, hok, herr, Bool.false_eq_true, if_false, step_proof]
    exact ⟨_, _, _, rfl, by simp [pyOr, h1, h2], by simp [pyOr, h1, h2]⟩
  · intro h1 h2
    simp only [step_fusion, hok, herr, Bool.false_eq_true, if_false, step_proof]
    exact ⟨_, _, _, rfl, by simp [pyOr, h1, h2], by simp [pyOr, h1, h2]⟩

def fusionDecOnlyBody : List (String × JVal) := [("decision", .jstr "REJECT")]

def envSilentFusionDecOnly : Env :=
  { envSilentOK with fusionAttempts := fun _ => .ok (httpOk fusionDecOnlyBody) }

/-- Claim C6 (counterexample to the claim as stated): a concrete successful
run whose fusion response omits `final_decision` but carries
`decision = "REJECT"` records "REJECT", not the "INCONCLUSIVE" sentinel. -/
theorem c6_counterexample :
    dget fusionDecOnlyBody "final_decision" = .jnull ∧
    finalDecisionOf (multimodal_verify reqSilentSample envSilentFusionDecOnly).result =
      some (.jstr "REJECT") ∧
    ¬ finalDecisionOf (multimodal_verify reqSilentSample envSilentFusionDecOnly).result =
      some (.jstr "INCONCLUSIVE") := by
  refine ⟨?_, ?_, ?_⟩ <;> decide

def envFusionEmptyBody : Env := { envBase with fusionAttempts := fun _ => .ok (httpOk []) }

theorem c6_witness :
    jTruthy (dget ([] : List (String × JVal)) "final_decision") = false ∧
    jTruthy (dget ([] : List (String × JVal)) "decision") = false ∧
    ∃ body proof trc,
      step_fusion (ctxSample envFusionEmptyBody) .jnull .jnull .jnull .jnull .jnull .jnull
        [] [] = ⟨.okResp body proof, trc⟩ ∧
      body.final_decision = .jstr "INCONCLUSIVE" ∧
      proof.final_decision = .jstr "INCONCLUSIVE" :=
  ⟨rfl, rfl,
    (c6_final_decision_fallback (ctxSample envFusionEmptyBody) .jnull .jnull .jnull .jnull
      .jnull .jnull [] [] [] rfl rfl).1 rfl rfl⟩

theorem postAttempt_all_fail (attempts : Nat → Except String HttpResp) (f : Nat → String)
    (hf : ∀ i, attempts i = .error (f i)) :
    ∀ (k i : Nat) (last : Option String),
      postAttempt attempts i (k + 1) last = .error (some (f (i + k))) := by
  intro k
  induction k with
  | zero =>
    intro i last
    simp [postAttempt, hf i]
  | succ k ih =>
    intro i last
    rw [show i + (k + 1) = i + 1 + k from by omega]
    have step : postAttempt attempts i (k + 1 + 1) last =
        postAttempt attempts (i + 1) (k + 1) (some (f i)) := by
      rw [postAttempt, hf i]
    rw [step, ih (i + 1)]

theorem post_multipart_all_fail (url : String) (retries : Nat)
    (attempts : Nat → Except String HttpResp) (f : Nat → String)
    (hf : ∀ i, attempts i = .error (f i)) :
    _post_multipart url retries attempts =
      .error ("HTTP_POST_MULTIPART_FAILED: " ++ url ++ " :: " ++ f retries) := by
  unfold _post_multipart
  rw [show max 1 (retries + 1) = retries + 1 from by omega,
    postAttempt_all_fail attempts f hf retries 0 none]
  simp [exceptionText]

/-- Claim C1 (amended): a ModuleError outcome (downstream HTTP 4xx/5xx)
yields the `_err` envelope with a stable machine-readable code (shown for
the challenge step: CHALLENGE_ERROR), a fixed short human message, and the
flags taken from the error body of the module itself - the flags accumulated by the
pipeline up to the failure are NOT included. The envelope structurally
consists of only ok/error_code/error_message/flags_summary, so it never
carries exception text. A TransportError (every attempt raising, retries
exhausted) does not produce such an envelope at all: `_post_multipart`
raises a RuntimeError embedding the URL and the last underlying exception
text, and that exception escapes `multimodal_verify` uncaught. -/
theorem c1_error_envelope_and_transport :
    (∀ (req : Request) (env : Env) (chd : List (String × JVal)),
      req.policy_id = "STRICT_SILENT" → req.enrollment_id_face ≠ "" →
      req.clip_video.content.length ≤ env.maxVideoMB * 1024 * 1024 →
      _post_multipart CHALLENGE_VALIDATE_URL env.httpRetries env.chAttempts = .ok chd →
      jTruthy (dget chd "__http_error__") = true →
      (multimodal_verify req env).result =
        _err (statusD chd) "CHALLENGE_ERROR" "challenge validate failed"
          (some (pyOr (dgetV (pyOr (dget chd "__json__") (.jobj [])) "flags_summary")
            (.jarr [])))) ∧
    (∀ (url : String) (retries : Nat) (attempts : Nat → Except String HttpResp)
      (f : Nat → String), (∀ i, attempts i = .error (f i)) →
      _post_multipart url retries attempts =
        .error ("HTTP_POST_MULTIPART_FAILED: " ++ url ++ " :: " ++ f retries)) ∧
    (∀ (req : Request) (env : Env) (em : String),
      req.policy_id = "STRICT_SILENT" → req.enrollment_id_face ≠ "" →
      req.clip_video.content.length ≤ env.maxVideoMB * 1024 * 1024 →
      _post_multipart CHALLENGE_VALIDATE_URL env.httpRetries env.chAttempts = .error em →
      (multimodal_verify req env).result = .raised em) := by
  refine ⟨?_, ?_, ?_⟩
  · intro req env chd hp hf hv hch hch2
    simp [multimodal_verify, _policy_to_mode, hp, hf, step_read_guard,
      step_persist, step_challenge, hch, hch2, Nat.not_lt.mpr hv, _err,
      show ("STRICT_SILENT":String) ≠ "STRICT_STANDARD" from by decide]
  · exact post_multipart_all_fail
  · intro req env em hp hf hv hch
    simp [multimodal_verify, _policy_to_mode, hp, hf, step_read_guard,
      step_persist, step_challenge, hch, Nat.not_lt.mpr hv,
      show ("STRICT_SILENT":String) ≠ "STRICT_STANDARD" from by decide]

def envSilentChErr : Env := { envBase with chAttempts := fun _ => .ok (httpErr500 []) }

def envSilentChTransport : Env :=
  { envBase with chAttempts := fun _ => .error "ConnectTimeout: connection timed out" }

/-- Claim C1 (counterexample to the claim as stated): in the first concrete
run the flag AUDIO_IGNORED_SILENT has been accumulated before the challenge
step fails, yet the flags_summary of the error response is the empty list, not
the accumulated flags. In the second run the challenge transport fails on
every attempt: the outcome is an uncaught exception whose text embeds the
URL and the internal exception text, with no error envelope (no
machine-readable code, no flags) at all. -/
theorem c1_counterexample :
    (multimodal_verify reqSilentSample envSilentChErr).result =
      .errResp 500 ⟨false, "CHALLENGE_ERROR", "challenge validate failed", .jarr []⟩ ∧
    (multimodal_verify reqSilentSample envSilentChErr).result ≠
      .errResp 500 ⟨false, "CHALLENGE_ERROR", "challenge validate failed",
        .jarr [.jstr "AUDIO_IGNORED_SILENT"]⟩ ∧
    (multimodal_verify reqSilentSample envSilentChTransport).result =
      .raised ("HTTP_POST_MULTIPART_FAILED: http://127.0.0.1:5012/api/challenge/validate :: ConnectTimeout: connection timed out") := by
  refine ⟨?_, ?_, ?_⟩ <;> decide

def chErrDict : List (String × JVal) := respToDict (httpErr500 [])

theorem c1_witness :
    ((multimodal_verify reqSilentSample envSilentChErr).result =
      _err (statusD chErrDict) "CHALLENGE_ERROR" "challenge validate failed"
        (some (pyOr (dgetV (pyOr (dget chErrDict "__json__") (.jobj [])) "flags_summary")
          (.jarr [])))) ∧
    _post_multipart "http://x/y" 1 (fun _ => .error "boom") =
      .error ("HTTP_POST_MULTIPART_FAILED: " ++ "http://x/y" ++ " :: " ++ "boom") ∧
    (multimodal_verify reqSilentSample envSilentChTransport).result =
      .raised "HTTP_POST_MULTIPART_FAILED: http://127.0.0.1:5012/api/challenge/validate :: ConnectTimeout: connection timed out" :=
  ⟨c1_error_envelope_and_transport.1 reqSilentSample envSilentChErr chErrDict
      rfl (by decide) (by decide) rfl rfl,
    c1_error_envelope_and_transport.2.1 "http://x/y" 1 (fun _ => .error "boom")
      (fun _ => "boom") (fun _ => rfl),
    c1_error_envelope_and_transport.2.2 reqSilentSample envSilentChTransport
      "HTTP_POST_MULTIPART_FAILED: http://127.0.0.1:5012/api/challenge/validate :: ConnectTimeout: connection timed out"
      rfl (by decide) (by decide) rfl⟩

/-- Is this effect a read of an upload? -/
def Effect.isRead : Effect → Bool
  | .readUpload _ => true
  | _ => false

/-- The outcome never reports AUDIO_TOO_LARGE, and every effect beyond the
given base trace is not an upload read. -/
def silentSafe (base : List Effect) (o : RunOutcome) : Prop :=
  resultCode o.result ≠ some "AUDIO_TOO_LARGE" ∧
  ∀ e ∈ o.trace, e ∈ base ∨ e.isRead = false

theorem silentSafe_extend {base ext : List Effect}
    (hext : ∀ e ∈ ext, Effect.isRead e = false)
    {o : RunOutcome} (h : silentSafe (base ++ ext) o) : silentSafe base o := by
  refine ⟨h.1, fun e he => ?_⟩
  rcases h.2 e he with hin | hr
  · rcases List.mem_append.mp hin with h1 | h2
    · exact Or.inl h1
    · exact Or.inr (hext e h2)
  · exact Or.inr hr

theorem step_proof_silentSafe (c : RunCtx) (s1 s2 s3 s4 s5 fd : JVal)
    (flags : List JVal) (trace : List Effect) :
    silentSafe trace (step_proof c s1 s2 s3 s4 s5 fd flags trace) := by
  constructor
  · simp [step_proof, resultCode]
  · intro e he
    simp only [step_proof, List.mem_append, List.mem_cons, List.not_mem_nil, or_false] at he
    rcases he with he | rfl | rfl
    · exact Or.inl he
    · exact Or.inr rfl
    · exact Or.inr rfl

theorem step_fusion_silentSafe (c : RunCtx) (s1 s2 s3 s4 s5 s6 : JVal)
    (flags : List JVal) (trace : List Effect) :
    silentSafe trace (step_fusion c s1 s2 s3 s4 s5 s6 flags trace) := by
  simp only [step_fusion]
  cases hpost : _post_json FUSION_EVALUATE_URL c.env.httpRetries c.env.fusionAttempts with
  | error e =>
    refine ⟨by simp [resultCode], fun e2 he => ?_⟩
    simp only [List.mem_append, List.mem_cons, List.not_mem_nil, or_false] at he
    rcases he with he | rfl
    · exact Or.inl he
    · exact Or.inr rfl
  | ok fres =>
    cases ht : jTruthy (dget fres "__http_error__") with
    | true =>
      simp only [ht, if_true]
      refine ⟨by simp [resultCode, _err], fun e2 he => ?_⟩
      simp only [List.mem_append, List.mem_cons, List.not_mem_nil, or_false] at he
      rcases he with he | rfl
      · exact Or.inl he
      · exact Or.inr rfl
    | false =>
      simp only [ht, Bool.false_eq_true, if_false]
      exact silentSafe_extend (by intro e he; simp at he; subst he; rfl)
        (step_proof_silentSafe c _ _ _ _ _ _ _ _)

theorem step_vsr_silentSafe (c : RunCtx) (s1 s2 s3 s4 s5 : JVal)
    (flags : List JVal) (trace : List Effect) :
    silentSafe trace (step_vsr c s1 s2 s3 s4 s5 flags trace) := by
  simp only [step_vsr]
  by_cases hs : c.req.policy_id = "STRICT_SILENT"
  · simp only [if_pos hs]
    cases hpost : _post_multipart VSR_VALIDATE_URL c.env.httpRetries c.env.vsrAttempts with
    | error e =>
      refine ⟨by simp [resultCode], fun e2 he => ?_⟩
      simp only [List.mem_append, List.mem_cons, List.not_mem_nil, or_false] at he
      rcases he with he | rfl
      · exact Or.inl he
      · exact Or.inr rfl
    | ok vres =>
      cases ht : jTruthy (dget vres "__http_error__") with
      | true =>
        simp only [ht, if_true]
        refine ⟨by simp [resultCode, _err], fun e2 he => ?_⟩
        simp only [List.mem_append, List.mem_cons, List.not_mem_nil, or_false] at he
        rcases he with he | rfl
        · exact Or.inl he
        · exact Or.inr rfl
      | false =>
        simp only [ht, Bool.false_eq_true, if_false]
        exact silentSafe_extend (by intro e he; simp at he; subst he; rfl)
          (step_fusion_silentSafe c _ _ _ _ _ _ _ _)
  · simp only [if_neg hs]
    exact step_fusion_silentSafe c _ _ _ _ _ _ _ _

theorem step_voice_lipsync_silentSafe (c : RunCtx) (s1 s2 s3 : JVal)
    (flags : List JVal) (trace : List Effect)
    (hns : c.req.policy_id ≠ "STRICT_STANDARD") :
    silentSafe trace (step_voice_lipsync c s1 s2 s3 flags trace) := by
  simp only [step_voice_lipsync, if_neg hns]
  exact step_vsr_silentSafe c _ _ _ _ _ _ _

theorem step_face_silentSafe (c : RunCtx) (s1 s2 : JVal)
    (flags : List JVal) (trace : List Effect)
    (hns : c.req.policy_id ≠ "STRICT_STANDARD") :
    silentSafe trace (step_face c s1 s2 flags trace) := by
  simp only [step_face]
  cases hpost : _post_multipart FACE_VERIFY_URL c.env.httpRetries c.env.faceAttempts with
  | error e =>
    refine ⟨by simp [resultCode], fun e2 he => ?_⟩
    simp only [List.mem_append, List.mem_cons, List.not_mem_nil, or_false] at he
    rcases he with he | rfl
    · exact Or.inl he
    · exact Or.inr rfl
  | ok fres =>
    cases ht : jTruthy (dget fres "__http_error__") with
    | true =>
      simp only [ht, if_true]
      refine ⟨by simp [resultCode, _err], fun e2 he => ?_⟩
      simp only [List.mem_append, List.mem_cons, List.not_mem_nil, or_false] at he
      rcases he with he | rfl
      · exact Or.inl he
      · exact Or.inr rfl
    | false =>
      simp only [ht, Bool.false_eq_true, if_false]
      exact silentSafe_extend (by intro e he; simp at he; subst he; rfl)
        (step_voice_lipsync_silentSafe c _ _ _ _ _ hns)

theorem step_challenge_silentSafe (c : RunCtx) (flags : List JVal) (trace : List Effect)
    (hns : c.req.policy_id ≠ "STRICT_STANDARD") :
    silentSafe trace (step_challenge c flags trace) := by
  simp only [step_challenge, if_neg hns]
  cases hpost : _post_multipart CHALLENGE_VALIDATE_URL c.env.httpRetries c.env.chAttempts with
  | error e =>
    refine ⟨by simp [resultCode], fun e2 he => ?_⟩
    simp only [List.mem_append, List.mem_cons, List.not_mem_nil, or_false] at he
    rcases he with he | rfl
    · exact Or.inl he
    · exact Or.inr rfl
  | ok ch_res =>
    cases ht : jTruthy (dget ch_res "__http_error__") with
    | true =>
      simp only [ht, if_true]
      refine ⟨by simp [resultCode, _err], fun e2 he => ?_⟩
      simp only [List.mem_append, List.mem_cons, List.not_mem_nil, or_false] at he
      rcases he with he | rfl
      · exact Or.inl he
      · exact Or.inr rfl
    | false =>
      simp only [ht, Bool.false_eq_true, if_false]
      exact silentSafe_extend (by intro e he; simp at he; subst he; rfl)
        (step_face_silentSafe c _ _ _ _ hns)

theorem multimodal_silentSafe (req : Request) (env : Env)
    (hp : req.policy_id = "STRICT_SILENT") :
    resultCode (multimodal_verify req env).result ≠ some "AUDIO_TOO_LARGE" ∧
    Effect.readUpload "clip_audio" ∉ (multimodal_verify req env).trace := by
  have hns : req.policy_id ≠ "STRICT_STANDARD" := by
    rw [hp]; decide
  have e1 : _policy_to_mode req.policy_id = .ok "SILENT" := by
    rw [hp]; rfl
  simp only [multimodal_verify, e1]
  by_cases h2 : req.enrollment_id_face = ""
  · simp only [if_pos h2]
    exact ⟨by simp [resultCode, _err], by simp⟩
  · simp only [if_neg h2]
    have h3 : ¬(req.policy_id = "STRICT_STANDARD" ∧
        optStrOrDefault req.enrollment_id_voice "" = "") := fun hc => hns hc.1
    have h4 : ¬(req.policy_id = "STRICT_STANDARD" ∧ req.clip_audio = none) :=
      fun hc => hns hc.1
    simp only [if_neg h3, if_neg h4, step_read_guard]
    by_cases h5 : env.maxVideoMB * 1024 * 1024 < req.clip_video.content.length
    · simp only [if_pos h5]
      exact ⟨by simp [resultCode, _err], by simp⟩
    · simp only [if_neg h5, if_neg hns, step_persist]
      rcases step_challenge_silentSafe
          ⟨req, env, "SILENT", req.clip_video.content,
            "clip_video" ++ strOrDefault
              (pathSuffix (optStrOrDefault req.clip_video.filename "clip_video.bin")) ".bin",
            "sessions/" ++ ("SES-" ++ strUpper (strTake 16 env.sessionHex)) ++ "/raw" ++ "/" ++
              ("clip_video" ++ strOrDefault
                (pathSuffix (optStrOrDefault req.clip_video.filename "clip_video.bin")) ".bin"),
            none, none, none, "SES-" ++ strUpper (strTake 16 env.sessionHex),
            "sessions/" ++ ("SES-" ++ strUpper (strTake 16 env.sessionHex)) ++ "/raw"⟩
          _ _ hns with ⟨hc, htr⟩
    
      refine ⟨hc, fun hmem => ?_⟩
      rcases htr _ hmem with hin | hread
      · simp [show ("clip_audio" : String) ≠ "clip_video" from by decide] at hin
      · simp [Effect.isRead] at hread

/-- Claim C10: under STRICT_SILENT a supplied audio clip is never read and
its size ceiling is never checked: whatever the environment and module
outcomes, no SILENT run ever reads the audio upload or fails with
AUDIO_TOO_LARGE (the ceiling is enforced only on the STRICT_STANDARD read
path of `step_read_guard`); and a SILENT run whose audio exceeds
MAX_AUDIO_MB megabytes still proceeds through the pipeline normally to a
success response when its modules succeed. -/
theorem c10_silent_audio_ceiling_not_enforced :
    (∀ (req : Request) (env : Env), req.policy_id = "STRICT_SILENT" →
      resultCode (multimodal_verify req env).result ≠ some "AUDIO_TOO_LARGE" ∧
      Effect.readUpload "clip_audio" ∉ (multimodal_verify req env).trace) ∧
    (∀ (req : Request) (env : Env) (a : Upload) (chd fad vsd fud : List (String × JVal)),
      req.policy_id = "STRICT_SILENT" → req.enrollment_id_face ≠ "" →
      req.clip_audio = some a →
      env.maxAudioMB * 1024 * 1024 < a.content.length →
      req.clip_video.content.length ≤ env.maxVideoMB * 1024 * 1024 →
      _post_multipart CHALLENGE_VALIDATE_URL env.httpRetries env.chAttempts = .ok chd →
      jTruthy (dget chd "__http_error__") = false →
      _post_multipart FACE_VERIFY_URL env.httpRetries env.faceAttempts = .ok fad →
      jTruthy (dget fad "__http_error__") = false →
      _post_multipart VSR_VALIDATE_URL env.httpRetries env.vsrAttempts = .ok vsd →
      jTruthy (dget vsd "__http_error__") = false →
      _post_json FUSION_EVALUATE_URL env.httpRetries env.fusionAttempts = .ok fud →
      jTruthy (dget fud "__http_error__") = false →
      ∃ body proof trc, multimodal_verify req env = ⟨.okResp body proof, trc⟩) := by
  constructor
  · exact multimodal_silentSafe
  · intro req env a chd fad vsd fud hp hf ha hbig hv hch hch2 hfa hfa2 hvs hvs2 hfu hfu2
    simp [multimodal_verify, _policy_to_mode, hp, hf, ha, step_read_guard,
      step_persist, step_challenge, step_face, step_voice_lipsync, step_vsr, step_fusion,
      step_proof, hch, hch2, hfa, hfa2, hvs, hvs2, hfu, hfu2, Nat.not_lt.mpr hv,
      show ("STRICT_SILENT":String) ≠ "STRICT_STANDARD" from by decide]

def envSilentTinyAudioCap : Env := { envSilentOK with maxAudioMB := 0 }

theorem c10_witness :
    (resultCode (multimodal_verify reqSilentSample envSilentTinyAudioCap).result ≠
      some "AUDIO_TOO_LARGE" ∧
     Effect.readUpload "clip_audio" ∉
      (multimodal_verify reqSilentSample envSilentTinyAudioCap).trace) ∧
    envSilentTinyAudioCap.maxAudioMB * 1024 * 1024 < audSample.content.length ∧
    (∃ body proof trc, multimodal_verify reqSilentSample envSilentTinyAudioCap =
      ⟨.okResp body proof, trc⟩) :=
  ⟨c10_silent_audio_ceiling_not_enforced.1 reqSilentSample envSilentTinyAudioCap rfl,
    by decide,
    c10_silent_audio_ceiling_not_enforced.2 reqSilentSample envSilentTinyAudioCap audSample
      chOkBody faceOkBody vsrOkBody fusionOkBody rfl (by decide) rfl (by decide) (by decide)
      rfl rfl rfl rfl rfl rfl rfl rfl⟩
